import Mathlib

/-
Verification of the dlrover elastic-training rendezvous/agent core and the
atorch mixed-parallel wrapper application.

The repository ships the test suite of the elastic training agent
(dlrover/python/tests/test_elastic_training_agent.py) and the atorch
optimization file (atorch/auto/opt_lib/mixed_parallel_optimization.py).
The agent and rendezvous-handler implementation itself
(dlrover/python/elastic_agent/torch/training.py) is not part of the
source tree, so the rendezvous and agent operations below are modelled
from the specification and checked against the concrete values the
test suite asserts.
-/

set_option autoImplicit false

namespace DLRover

/-- A participant of a rendezvous round: the node identifier and the
number of worker processes the node runs. -/
structure NodeInfo where
  node_id : Nat
  local_world_size : Nat
deriving DecidableEq, Repr, Inhabited

/-- One worker of the local worker group. -/
structure Worker where
  local_rank : Nat
  global_rank : Nat
  world_size : Nat
deriving DecidableEq, Repr, Inhabited

/-- The worker group a rendezvous populates for one node. -/
structure WorkerGroup where
  workers : List Worker
  group_rank : Nat
  group_world_size : Nat
deriving DecidableEq, Repr, Inhabited

/-- Modelled from the spec: the start of the global-rank block of node `i`
is the sum of `local_world_size` over the nodes that joined before it.
`parts` lists the `local_world_size` of every participant in join order. -/
def rank_offset (parts : List Nat) (i : Nat) : Nat :=
  (parts.take i).sum

/-- Modelled from the spec: the world size of a round is the sum of
`local_world_size` over all participants. -/
def world_size (parts : List Nat) : Nat :=
  parts.sum

/-- Modelled from the spec: `next_rendezvous` of `MasterRendezvousHandler`
(the implementation file is absent from the source tree). Given the
participants of the round in join order (`parts`, their local world sizes)
and the join ordinal `i` of this node, it deterministically builds the
worker group: local ranks `0 .. parts[i] - 1`, global ranks starting at
`rank_offset parts i`, `group_rank = i`, `group_world_size` the number of
participants, and `world_size` the sum of all local world sizes. -/
def next_rendezvous (parts : List Nat) (i : Nat) : WorkerGroup :=
  { workers :=
      (List.range (parts.getD i 0)).map fun j =>
        { local_rank := j
          global_rank := rank_offset parts i + j
          world_size := world_size parts }
    group_rank := i
    group_world_size := parts.length }

/-- All global ranks a round assigns, over every node of the round in
join order. -/
def all_global_ranks (parts : List Nat) : List Nat :=
  (List.range parts.length).flatMap fun i =>
    ((next_rendezvous parts i).workers).map Worker.global_rank

/-- A cached or freshly queried rendezvous round snapshot: the round
number together with the participant list. -/
structure RdzvSnapshot where
  round : Nat
  participants : List NodeInfo
deriving DecidableEq, Repr, Inhabited

/-- Modelled from the spec: `membership_changed` of the rendezvous handler
(implementation absent from the source tree). It compares the cached
snapshot against the freshly queried one; the first component is the
returned boolean, the second the cache after the call. The cache is
replaced only when a genuinely new round is observed. -/
def membership_changed (cached fresh : RdzvSnapshot) : Bool × RdzvSnapshot :=
  if fresh = cached then (false, cached) else (true, fresh)

/-- The booleans returned by a sequence of `membership_changed` calls,
threading the cached snapshot; `obs` lists the freshly queried snapshot
seen at each call. -/
def membership_changed_calls (cached : RdzvSnapshot) : List RdzvSnapshot → List Bool
  | [] => []
  | f :: rest =>
    (membership_changed cached f).1 ::
      membership_changed_calls (membership_changed cached f).2 rest

/-- Worker-group states of the agent state machine. -/
inductive WorkerState where
  | INIT
  | HEALTHY
  | UNHEALTHY
  | SUCCEEDED
  | FAILED
deriving DecidableEq, Repr, Inhabited

/-- The result `_invoke_run` returns to its caller: a terminal state and
a failure map keyed by global rank. -/
structure RunResult where
  state : WorkerState
  failures : List (Nat × String)
deriving DecidableEq, Repr, Inhabited

/-- The outcome of monitoring one spawned generation of workers: either
every worker exited successfully, or some failed with the collected
failure map. -/
inductive RoundOutcome where
  | success
  | failure (failures : List (Nat × String))
deriving DecidableEq, Repr, Inhabited

/-- Modelled from the spec: the monitor observation of one generation.
`exit_codes` pairs with the workers positionally; a nonzero exit code
records a failure reason keyed by the worker global rank. -/
def monitor_round (workers : List Worker) (exit_codes : List Nat) : RoundOutcome :=
  let failures :=
    ((workers.zip exit_codes).filter fun p => p.2 != 0).map fun p =>
      (p.1.global_rank, "exit code " ++ toString p.2)
  if failures = [] then RoundOutcome.success else RoundOutcome.failure failures

/-- Modelled from the spec: the `_invoke_run` monitor loop of the agent
(implementation absent from the source tree). `outcomes` lists the
observation of each successive generation of workers. On success the
loop returns SUCCEEDED with an empty failure map; on a failure it
restarts while `restart_count < max_restarts` and otherwise returns
FAILED carrying the failure map. `none` means the supplied observation
list ended before the run reached a terminal state. -/
def invoke_run (max_restarts : Nat) : Nat → List RoundOutcome → Option RunResult
  | _, [] => none
  | restart_count, o :: rest =>
    match o with
    | RoundOutcome.success => some ⟨WorkerState.SUCCEEDED, []⟩
    | RoundOutcome.failure fs =>
      if restart_count < max_restarts then
        invoke_run max_restarts (restart_count + 1) rest
      else
        some ⟨WorkerState.FAILED, fs⟩

/-- Errors of the rendezvous join step. -/
inductive RdzvError where
  | timeout
deriving DecidableEq, Repr, Inhabited

/-- Modelled from the spec: `_rendezvous` of the agent builds the worker
group from the join result; a join timeout is propagated unchanged. -/
def rendezvous_attempt (join_result : Except RdzvError (List Nat × Nat)) :
    Except RdzvError WorkerGroup :=
  match join_result with
  | Except.error e => Except.error e
  | Except.ok (parts, i) => Except.ok (next_rendezvous parts i)

/-- Modelled from the spec: a `_rendezvous` call against a queue of join
results. The second component counts how many join attempts were
consumed: the layer performs a single attempt and never retries. -/
def rendezvous_run (joins : List (Except RdzvError (List Nat × Nat))) :
    Except RdzvError WorkerGroup × Nat :=
  match joins with
  | [] => (Except.error RdzvError.timeout, 0)
  | j :: _ => (rendezvous_attempt j, 1)

/-- Modelled from the spec: `_report_failure_to_master`. The transport to
the coordination authority may fail; the call swallows the error, only
logging it. The first component is whether the agent keeps executing
(always true), the second the log lines produced. -/
def report_failure_to_master (failures : List (Nat × String))
    (transport : List (Nat × String) → Except String Unit) :
    Bool × List String :=
  match transport failures with
  | Except.ok _ => (true, [])
  | Except.error e => (true, ["report failure error: " ++ e])

/-- The global state of the rendezvous key-value store: association list
from the (round, group) scope to the scoped key-value pairs, most recent
first. -/
def StoreState : Type :=
  List ((Nat × Nat) × List (String × String))

/-- Modelled from the spec: `set(key, value)` on the handle returned by
`get_store(round, group)`. -/
def store_set (s : StoreState) (round group : Nat) (key value : String) :
    StoreState :=
  ((round, group), (key, value) :: (s.lookup (round, group)).getD []) :: s

/-- Modelled from the spec: `get(key)` on the handle returned by
`get_store(round, group)`. -/
def store_get (s : StoreState) (round group : Nat) (key : String) :
    Option String :=
  ((s.lookup (round, group)).getD []).lookup key

/-- A concrete snapshot used to instantiate theorems. -/
def egSnap : RdzvSnapshot :=
  { round := 0, participants := [⟨0, 8⟩, ⟨1, 8⟩] }

end DLRover

namespace Atorch

/-- A wrapper registered on the model context by `add_wrapper`. -/
structure WrapperEntry where
  name : String
  pre_wrapper : Bool
deriving DecidableEq, Repr, Inhabited

/-- The mutable model context `apply_wrapper` transforms: the wrappers
registered so far, the parallel-mode configuration, and whether the model
was converted to a loss wrapper. -/
structure ModelContext where
  wrappers : List WrapperEntry
  parallel_mode_config : Option String
  loss_wrapper : Bool
deriving DecidableEq, Repr, Inhabited

/-- Method `model_context.add_wrapper(name, ..., is_pre_wrapper)`:
registers a wrapper on the context. -/
def ModelContext.add_wrapper (mc : ModelContext) (name : String)
    (pre : Bool) : ModelContext :=
  { mc with wrappers := mc.wrappers ++ [⟨name, pre⟩] }

/-- The `compiler_configs` dictionary of a pipe configuration. A `none`
field stands for an absent key where the code uses `.get` with a default,
and for the two keys read with brackets (`insert_before_nodes`,
`expected_num_stages`) an absent key raises `KeyError`. -/
structure PipeCompilerConfigs where
  amp_config : Option String
  use_c10d : Option Bool
  insert_before_nodes : Option (List String)
  expected_num_stages : Option Nat
deriving DecidableEq, Repr, Inhabited

/-- The `pipe_config` dictionary. -/
structure PipeCfg where
  checkpoint : Option Bool
  compiler_configs : PipeCompilerConfigs
deriving DecidableEq, Repr, Inhabited

/-- The `tp_config` dictionary: the fields `apply_wrapper` writes. -/
structure TpCfg where
  gm : Option Nat
  defer_init : Option Bool
deriving DecidableEq, Repr, Inhabited

/-- The `wrapper_config` dictionary passed to `apply_wrapper`. An outer
`none` stands for an absent key, whose bracket access raises `KeyError`;
the inner `Option` of `pipe_config` and `tp_config` is the Python `None`
value the code tests with `is not None`. -/
structure WrapperConfigDict where
  pipe_config : Option (Option PipeCfg)
  tp_config : Option (Option TpCfg)
  ddp : Option Bool
  parallel_mode : Option String
deriving DecidableEq, Repr, Inhabited

/-- Dictionary bracket access: raises `KeyError` when the key is absent. -/
def dictGet {α : Type} (v : Option α) (key : String) : Except String α :=
  match v with
  | some a => Except.ok a
  | none => Except.error ("KeyError: " ++ key)

/-- The external calls the body of `apply_wrapper` performs, each of which
may raise. Graphs and graph modules are abstracted to identifiers. -/
structure Effects where
  destroy_parallel_group : Except String Unit
  create_parallel_group : String → Except String Unit
  convert_to_loss_wrapper : Option String → Except String Unit
  capture_compute_graph : Except String Nat
  insert_split_point : Nat → List String → Nat → Except String Nat
  compile_to_pipe : Nat → Except String Unit
  set_sync_bn_pg : Except String Unit
deriving Inhabited

/-- Sequencing of the Python statements: an earlier exception aborts the
rest of the body, keeping the model context mutated so far. -/
def pyBind {α β : Type} (x : ModelContext × Except String α)
    (f : α → ModelContext → ModelContext × Except String β) :
    ModelContext × Except String β :=
  match x with
  | (mc, Except.error e) => (mc, Except.error e)
  | (mc, Except.ok a) => f a mc

/-- A statement that does not mutate the model context. -/
def pyStep {α : Type} (x : Except String α) (mc : ModelContext) :
    ModelContext × Except String α :=
  (mc, x)

/-- The body of the `try` block of
`MixedParallelOptimization.apply_wrapper`
(atorch/auto/opt_lib/mixed_parallel_optimization.py): reads the four
configuration keys, recreates the parallel groups, runs the pipe branch
(loss-wrapper conversion, graph capture, split-point insertion, optional
c10d compilation, threading the graph module into `tp_config`), then
registers the tp, pipe and ddp wrappers and records the parallel mode. -/
def apply_wrapper_body (eff : Effects) (cfg : WrapperConfigDict)
    (mc0 : ModelContext) : ModelContext × Except String Unit :=
  pyBind (pyStep (dictGet cfg.pipe_config "pipe_config") mc0) fun pipe_config0 mc =>
  pyBind (pyStep (dictGet cfg.tp_config "tp_config") mc) fun tp_config0 mc =>
  pyBind (pyStep (dictGet cfg.ddp "ddp") mc) fun ddp mc =>
  pyBind (pyStep (dictGet cfg.parallel_mode "parallel_mode") mc) fun parallel_mode mc =>
  pyBind (pyStep eff.destroy_parallel_group mc) fun _ mc =>
  pyBind (pyStep (eff.create_parallel_group parallel_mode) mc) fun _ mc =>
  pyBind
    (match pipe_config0 with
     | none => (mc, Except.ok (none, tp_config0))
     | some pc0 =>
       let pc := { pc0 with checkpoint := some (pc0.checkpoint.getD true) }
       let amp_config := pc.compiler_configs.amp_config
       let use_c10d := pc.compiler_configs.use_c10d.getD false
       pyBind (pyStep (eff.convert_to_loss_wrapper amp_config) mc) fun _ mc =>
       let mc := { mc with loss_wrapper := true }
       pyBind (pyStep (dictGet pc.compiler_configs.insert_before_nodes
           "insert_before_nodes") mc) fun insert_before_nodes mc =>
       pyBind (pyStep (dictGet pc.compiler_configs.expected_num_stages
           "expected_num_stages") mc) fun expected_num_stages mc =>
       pyBind (pyStep eff.capture_compute_graph mc) fun graph mc =>
       pyBind (pyStep (eff.insert_split_point graph insert_before_nodes
           expected_num_stages) mc) fun pipe_graph mc =>
       let gm := pipe_graph
       pyBind (if use_c10d then pyStep (eff.compile_to_pipe gm) mc
               else (mc, Except.ok ())) fun _ mc =>
       let tp_config1 :=
         match tp_config0 with
         | none => none
         | some tc => some { tc with gm := some gm, defer_init := some true }
       (mc, Except.ok (some pc, tp_config1)))
    fun pr mc =>
  let tp_config := pr.2
  let pipe_cfg := pr.1
  let mc := match tp_config with
    | none => mc
    | some _ => mc.add_wrapper "tp" true
  let mc := match pipe_cfg with
    | none => mc
    | some _ => mc.add_wrapper "pipe" true
  pyBind (if ddp then pyStep eff.set_sync_bn_pg mc else (mc, Except.ok ()))
    fun _ mc =>
  let mc := if ddp then mc.add_wrapper "ddp" false else mc
  let mc := { mc with parallel_mode_config := some parallel_mode }
  (mc, Except.ok ())

/-- Static method `MixedParallelOptimization.apply_wrapper`: the whole body runs inside
`try`, and the `except Exception` handler prints the traceback and logs a
warning, after which the function returns normally. The second component
lists the log lines, the third is what escapes to the caller. -/
def apply_wrapper (eff : Effects) (cfg : WrapperConfigDict)
    (mc : ModelContext) : ModelContext × List String × Except String Unit :=
  match apply_wrapper_body eff cfg mc with
  | (mc2, Except.ok _) =>
    (mc2, ["Successfully transformed the model into mixed parallel model"],
      Except.ok ())
  | (mc2, Except.error e) =>
    (mc2,
      ["Failed to transform the model into a parallel model, with error: " ++ e],
      Except.ok ())

/-- A concrete effect assignment whose `set_sync_bn_pg` raises. -/
def egEff : Effects :=
  { destroy_parallel_group := Except.ok ()
    create_parallel_group := fun _ => Except.ok ()
    convert_to_loss_wrapper := fun _ => Except.ok ()
    capture_compute_graph := Except.ok 0
    insert_split_point := fun g _ _ => Except.ok g
    compile_to_pipe := fun _ => Except.ok ()
    set_sync_bn_pg := Except.error "process group not initialized" }

/-- A concrete wrapper configuration: no pipe config, a tp config, ddp
enabled. -/
def egCfg : WrapperConfigDict :=
  { pipe_config := some none
    tp_config := some (some { gm := none, defer_init := none })
    ddp := some true
    parallel_mode := some "auto" }

/-- A fresh model context. -/
def egMc : ModelContext :=
  { wrappers := [], parallel_mode_config := none, loss_wrapper := false }

end Atorch

namespace DLRover

theorem workers_getD (parts : List Nat) (i j : Nat) (hj : j < parts.getD i 0) :
    (next_rendezvous parts i).workers.getD j default =
      ⟨j, rank_offset parts i + j, world_size parts⟩ := by
  rw [List.getD_eq_getElem?_getD] at hj
  simp [next_rendezvous, List.getD, List.getElem?_map, List.getElem?_range hj]

/-- Claim C1: on a successful rendezvous with participants listed in join
order, node i receives the block of global ranks starting at the sum of
the local world sizes of nodes 0..i-1, with local ranks 0..lws-1 inside
the block, group_rank i, group_world_size the participant count, and
world_size the total; in the two-node scenario with local world size 8
the local-rank-1 worker of node1 has global rank 9 and world size 16, and
the local-rank-1 worker of node0 has global rank 1. -/
theorem C1_rank_assignment (parts : List Nat) (i j : Nat)
    (hj : j < parts.getD i 0) :
    ((next_rendezvous parts i).workers.getD j default).local_rank = j ∧
    ((next_rendezvous parts i).workers.getD j default).global_rank
      = (parts.take i).sum + j ∧
    ((next_rendezvous parts i).workers.getD j default).world_size = parts.sum ∧
    (next_rendezvous parts i).group_rank = i ∧
    (next_rendezvous parts i).group_world_size = parts.length ∧
    (next_rendezvous parts i).workers.length = parts.getD i 0 ∧
    ((next_rendezvous [8, 8] 1).workers.getD 1 default).global_rank = 9 ∧
    ((next_rendezvous [8, 8] 1).workers.getD 1 default).world_size = 16 ∧
    ((next_rendezvous [8, 8] 0).workers.getD 1 default).global_rank = 1 := by
  rw [workers_getD parts i j hj]
  refine ⟨rfl, rfl, rfl, rfl, rfl, ?_, by decide, by decide, by decide⟩
  simp [next_rendezvous]

/-- Witness for C1 at the concrete two-node scenario. -/
theorem C1_rank_assignment_witness :
    ((next_rendezvous [8, 8] 1).workers.getD 1 default).local_rank = 1 :=
  (C1_rank_assignment [8, 8] 1 1 (by decide)).1

theorem flatMap_range_blocks (parts : List Nat) :
    (List.range parts.length).flatMap
      (fun i => (List.range (parts.getD i 0)).map fun j => (parts.take i).sum + j)
    = List.range parts.sum := by
  induction parts with
  | nil => simp
  | cons p rest ih =>
    rw [List.length_cons, List.range_succ_eq_map, List.flatMap_cons, List.flatMap_map]
    have hfun : ∀ a : Nat,
        (List.range ((p :: rest).getD a.succ 0)).map
            (fun j => ((p :: rest).take a.succ).sum + j)
        = ((List.range (rest.getD a 0)).map
            fun j => (rest.take a).sum + j).map fun x => p + x := by
      intro a
      simp [List.map_map, Function.comp, Nat.add_assoc]
    simp only [Function.comp, hfun]
    rw [← List.map_flatMap, ih]
    simp [List.range_add]

theorem global_ranks_map (parts : List Nat) (i : Nat) :
    ((next_rendezvous parts i).workers).map Worker.global_rank
      = (List.range (parts.getD i 0)).map fun j => (parts.take i).sum + j := by
  simp [next_rendezvous, List.map_map, rank_offset]

/-- Claim C2: over all nodes of a successful round, the global ranks
assigned are exactly the contiguous list 0 .. world_size - 1, with no
duplicates. -/
theorem C2_global_ranks_contiguous (parts : List Nat) :
    all_global_ranks parts = List.range (world_size parts) ∧
    (all_global_ranks parts).Nodup := by
  have h : all_global_ranks parts = List.range (world_size parts) := by
    unfold all_global_ranks world_size
    simp only [global_ranks_map]
    exact flatMap_range_blocks parts
  exact ⟨h, h ▸ List.nodup_range _⟩

/-- Claim C3: after a successful rendezvous, every worker carries
world_size equal to the sum of the local world sizes of all joined nodes,
and group_world_size equals the node count. -/
theorem C3_world_size_sum (parts : List Nat) (i : Nat) :
    (next_rendezvous parts i).group_world_size = parts.length ∧
    ((next_rendezvous parts i).workers).map Worker.world_size
      = List.replicate (parts.getD i 0) (world_size parts) := by
  refine ⟨rfl, ?_⟩
  simp only [next_rendezvous, List.map_map]
  have hc : (Worker.world_size ∘ fun j =>
      ({ local_rank := j, global_rank := rank_offset parts i + j,
         world_size := world_size parts } : Worker))
      = fun _ => world_size parts := rfl
  rw [hc, List.map_const', List.length_range]

theorem membership_changed_snd (c f : RdzvSnapshot) :
    (membership_changed c f).2 = f := by
  unfold membership_changed
  by_cases h : f = c
  · simp [h]
  · simp [h]

theorem membership_changed_fst (c f : RdzvSnapshot) :
    (membership_changed c f).1 = decide (f ≠ c) := by
  unfold membership_changed
  by_cases h : f = c <;> simp [h]

/-- Claim C4: over any sequence of membership_changed calls, the call
returns true exactly at the genuine round transitions (the observed
snapshot differs from the previous one) and false on every repeated call
against an unchanged round; the cached snapshot is not mutated when the
call returns false, and an immediate repeat of a call never flips back to
true. -/
theorem C4_membership_changed_once (c : RdzvSnapshot) (obs : List RdzvSnapshot) :
    membership_changed_calls c obs
      = List.zipWith (fun prev cur => decide (cur ≠ prev)) (c :: obs) obs ∧
    (∀ f, (membership_changed c f).1 = false → (membership_changed c f).2 = c) ∧
    (∀ f, (membership_changed ((membership_changed c f).2) f).1 = false) := by
  refine ⟨?_, ?_, ?_⟩
  · induction obs generalizing c with
    | nil => rfl
    | cons f rest ih =>
      rw [membership_changed_calls, membership_changed_fst, membership_changed_snd,
        List.zipWith_cons_cons, ih f]
  · intro f h
    rw [membership_changed_fst] at h
    have hfc : f = c := by simpa using h
    rw [membership_changed_snd, hfc]
  · intro f
    rw [membership_changed_snd, membership_changed_fst]
    simp

/-- Witness for C4: a repeated call against an unchanged round returns
false and leaves the cache untouched. -/
theorem C4_membership_changed_witness :
    (membership_changed egSnap egSnap).2 = egSnap :=
  (C4_membership_changed_once egSnap []).2.1 egSnap (by decide)

theorem invoke_run_skip_failures (k : Nat) (rc : Nat)
    (pre rest : List RoundOutcome)
    (hpre : ∀ o ∈ pre, ∃ fs, o = RoundOutcome.failure fs)
    (h : rc + pre.length ≤ k) :
    invoke_run k rc (pre ++ rest) = invoke_run k (rc + pre.length) rest := by
  induction pre generalizing rc with
  | nil => simp
  | cons o pre ih =>
    obtain ⟨fs, rfl⟩ := hpre o (List.mem_cons_self o pre)
    have hrc : rc < k := by
      have := h
      simp only [List.length_cons] at this
      omega
    rw [List.cons_append]
    show invoke_run k rc (RoundOutcome.failure fs :: (pre ++ rest)) = _
    rw [invoke_run]
    simp only [hrc, if_true]
    rw [ih (rc + 1) (fun o ho => hpre o (List.mem_cons_of_mem _ ho))
      (by simp only [List.length_cons] at h; omega)]
    congr 1
    simp only [List.length_cons]
    omega

/-- Claim C5: with max_restarts = k, a run hitting more than k
consecutive failures ends FAILED with a non-empty failure map and makes
no further restart attempt, while a run whose failures stop within k
restarts ends SUCCEEDED. -/
theorem C5_restart_budget (k : Nat) (fs : List (Nat × String))
    (pre rest : List RoundOutcome)
    (hfs : fs ≠ [])
    (hpre : ∀ o ∈ pre, ∃ g, o = RoundOutcome.failure g)
    (hlen : pre.length ≤ k) :
    (invoke_run k 0 (List.replicate (k + 1) (RoundOutcome.failure fs) ++ rest)
        = some ⟨WorkerState.FAILED, fs⟩ ∧ fs ≠ []) ∧
    invoke_run k 0 (pre ++ [RoundOutcome.success])
        = some ⟨WorkerState.SUCCEEDED, []⟩ := by
  refine ⟨⟨?_, hfs⟩, ?_⟩
  · rw [List.replicate_succ', List.append_assoc]
    rw [invoke_run_skip_failures k 0 (List.replicate k (RoundOutcome.failure fs))
      ([RoundOutcome.failure fs] ++ rest)
      (fun o ho => ⟨fs, List.eq_of_mem_replicate ho⟩)
      (by simp)]
    simp [invoke_run]
  · rw [invoke_run_skip_failures k 0 pre [RoundOutcome.success] hpre
      (by simpa using hlen)]
    rfl

/-- Witness for C5: with max_restarts = 1, two consecutive failures end
FAILED carrying the failure map. -/
theorem C5_restart_budget_witness :
    invoke_run 1 0 (List.replicate 2 (RoundOutcome.failure [(0, "oom")]) ++ [])
        = some ⟨WorkerState.FAILED, [(0, "oom")]⟩ :=
  ((C5_restart_budget 1 [(0, "oom")] [RoundOutcome.failure [(0, "seg")]] []
      (by simp)
      (fun o ho => ⟨[(0, "seg")], by simpa using ho⟩)
      (by simp)).1).1

/-- Claim C6: if every worker of a run exits successfully the run
returns SUCCEEDED with an empty failure map; in particular a single node
with two workers both exiting 0 yields that result. -/
theorem C6_all_success (k : Nat) (ws : List Worker) (exit_codes : List Nat)
    (h : ∀ c ∈ exit_codes, c = 0) :
    invoke_run k 0 [monitor_round ws exit_codes]
        = some ⟨WorkerState.SUCCEEDED, []⟩ ∧
    invoke_run k 0 [monitor_round (next_rendezvous [2] 0).workers [0, 0]]
        = some ⟨WorkerState.SUCCEEDED, []⟩ := by
  have hm : monitor_round ws exit_codes = RoundOutcome.success := by
    unfold monitor_round
    have hf : (ws.zip exit_codes).filter (fun p => p.2 != 0) = [] := by
      rw [List.filter_eq_nil_iff]
      intro p hp
      have h2 := (List.of_mem_zip hp).2
      have := h p.2 h2
      simp [this]
    simp [hf]
  refine ⟨by rw [hm]; rfl, rfl⟩

/-- Witness for C6 at the concrete single-node scenario. -/
theorem C6_all_success_witness :
    invoke_run 0 0 [monitor_round (next_rendezvous [2] 0).workers [0, 0]]
        = some ⟨WorkerState.SUCCEEDED, []⟩ :=
  (C6_all_success 0 (next_rendezvous [2] 0).workers [0, 0] (by decide)).1

/-- Claim C7: a rendezvous join timeout is fatal to the current attempt,
is propagated unchanged to the caller, and the layer consumes exactly one
join attempt, performing no retry. -/
theorem C7_timeout_propagated (rest : List (Except RdzvError (List Nat × Nat))) :
    rendezvous_run (Except.error RdzvError.timeout :: rest)
      = (Except.error RdzvError.timeout, 1) := rfl

/-- Claim C8: _report_failure_to_master never raises: for every failures
argument and every transport behaviour execution continues, and a
transport error is recorded in the log instead of escalating. -/
theorem C8_report_failure_never_raises (failures : List (Nat × String))
    (transport : List (Nat × String) → Except String Unit) :
    (report_failure_to_master failures transport).1 = true ∧
    (∀ e, transport failures = Except.error e →
      (report_failure_to_master failures transport).2
        = ["report failure error: " ++ e]) := by
  cases htr : transport failures with
  | ok a =>
    refine ⟨by simp [report_failure_to_master, htr], fun e he => ?_⟩
    cases he
  | error e0 =>
    refine ⟨by simp [report_failure_to_master, htr], fun e he => ?_⟩
    cases he
    simp [report_failure_to_master, htr]

/-- Witness for C8: an always-failing transport is swallowed and logged. -/
theorem C8_report_failure_witness :
    (report_failure_to_master [] (fun _ => Except.error "net down")).2
      = ["report failure error: " ++ "net down"] :=
  (C8_report_failure_never_raises [] (fun _ => Except.error "net down")).2
    "net down" rfl

/-- Claim C9: a value set by one participant on the store scoped to a
(round, group) pair is observed by any participant that subsequently
queries the same key for the same scope. -/
theorem C9_store_set_get (s : StoreState) (round group : Nat)
    (key value : String) :
    store_get (store_set s round group key value) round group key
      = some value := by
  unfold store_get store_set
  simp [List.lookup]

end DLRover

namespace Atorch

/-- Claim C10: MixedParallelOptimization.apply_wrapper never propagates
an exception to its caller: the whole body runs inside a try whose
handler only prints the traceback and logs a warning, so every failure
during transformation returns normally, keeping the model context
mutated so far. -/
theorem C10_apply_wrapper_never_raises (eff : Effects) (cfg : WrapperConfigDict)
    (mc : ModelContext) :
    (apply_wrapper eff cfg mc).2.2 = Except.ok () ∧
    (∀ e, (apply_wrapper_body eff cfg mc).2 = Except.error e →
      (apply_wrapper eff cfg mc).1 = (apply_wrapper_body eff cfg mc).1 ∧
      (apply_wrapper eff cfg mc).2.1
        = ["Failed to transform the model into a parallel model, with error: "
            ++ e]) := by
  unfold apply_wrapper
  cases hb : apply_wrapper_body eff cfg mc with
  | mk mc2 r =>
    cases r with
    | ok a => exact ⟨rfl, fun e he => by simp at he⟩
    | error e0 =>
      refine ⟨rfl, fun e he => ?_⟩
      simp only at he
      cases he
      exact ⟨rfl, rfl⟩

/-- Witness for C10: with a failing set_sync_bn_pg the body raises after
registering the tp wrapper, yet apply_wrapper returns normally, keeping
the partially transformed context and logging the warning. -/
theorem C10_apply_wrapper_witness :
    (apply_wrapper egEff egCfg egMc).1 = (apply_wrapper_body egEff egCfg egMc).1 ∧
    (apply_wrapper egEff egCfg egMc).2.1
      = ["Failed to transform the model into a parallel model, with error: "
          ++ "process group not initialized"] :=
  (C10_apply_wrapper_never_raises egEff egCfg egMc).2
    "process group not initialized" rfl

end Atorch
